import Mathlib

/-!
Verification of the predictive-maintenance ingestion and risk-scoring
pipeline.  The risk classifier is embedded from
predictive-care-next/src/components/ml/MLModelVisualizer.tsx
(function makePrediction); the CSV ingestion pipeline is embedded from
epics-backend/controllers/csvDB.controller.js together with the query
layer in epics-backend/db (recordExists, insertRecord).  Numbers that
the JavaScript source manipulates as IEEE doubles are modelled as exact
rationals; the constant Math.PI is modelled by the exact rational value
of the double constant the source reads.
-/

/-- Exact rational value of the IEEE-754 double constant Math.PI used by
the source (884279719003555 / 2^48 = 3.14159265358979311599796...). -/
def MathPI : ℚ := 884279719003555 / 281474976710656

/-- Sensor input of makePrediction (MLModelVisualizer.tsx): the five raw
fields of the sensorData prop. -/
structure SensorData where
  air_temperature : ℚ
  process_temperature : ℚ
  rotational_speed : ℚ
  torque : ℚ
  tool_wear : ℚ
deriving DecidableEq

/-- Derived feature tempDiff of makePrediction:
tempDiff = process_temperature - air_temperature. -/
def tempDiff (d : SensorData) : ℚ :=
  d.process_temperature - d.air_temperature

/-- Derived feature power of makePrediction:
power = (2 * Math.PI * rotational_speed * torque) / 60. -/
def power (d : SensorData) : ℚ :=
  2 * MathPI * d.rotational_speed * d.torque / 60

/-- The riskScore accumulation of makePrediction:
riskScore = min(tool_wear / 250, 0.4) + min(max(tempDiff - 8, 0) / 12, 0.3)
          + min(power / 15000, 0.3). -/
def riskScore (d : SensorData) : ℚ :=
  min (d.tool_wear / 250) 0.4
    + min (max (tempDiff d - 8) 0 / 12) 0.3
    + min (power d / 15000) 0.3

/-- failureProbability = Math.min(riskScore, 0.99) in makePrediction
(an upper clamp only; the source applies no lower clamp). -/
def failureProbability (d : SensorData) : ℚ :=
  min (riskScore d) 0.99

/-- The four-band risk label of makePrediction: >= 0.7 critical,
else >= 0.5 high, else >= 0.3 medium, else low. -/
def riskLevel (p : ℚ) : String :=
  if p ≥ 0.7 then "critical"
  else if p ≥ 0.5 then "high"
  else if p ≥ 0.3 then "medium"
  else "low"

/-- The raw-score formula as the specification words it (0.4, 0.3, 0.3
weights applied to factors normalised against 250 / 12 / 15000), written
here only to be compared with the riskScore the source computes. -/
def specRawScore (d : SensorData) : ℚ :=
  0.4 * min (d.tool_wear / 250) 1
    + 0.3 * min (max (tempDiff d - 8) 0 / 12) 1
    + 0.3 * min (power d / 15000) 1

/-- The clamp of the raw score to the interval [0, 0.99] as the
specification words it, written to be compared with the upper-only
clamp of the source. -/
def specFailureProbability (d : SensorData) : ℚ :=
  min (max (specRawScore d) 0) 0.99

/-- Modelled from the spec: the cost-sensitive maintenance cost 2050
used by the threshold formula of the Risk Classifier; the ml-enterprise
backend implementing it is absent from the source tree (only its README
documents the formula). -/
def maintenanceCost : ℚ := 2050

/-- Modelled from the spec: the cost-sensitive failure cost 10300 of the
Risk Classifier threshold formula (see maintenanceCost). -/
def failureCost : ℚ := 10300

/-- Modelled from the spec: the cost-sensitive decision threshold
maintenance_cost / (maintenance_cost + failure_cost). -/
def decisionThreshold : ℚ := maintenanceCost / (maintenanceCost + failureCost)

/-- Modelled from the spec: the binary failure-risk flag, set exactly
when the raw score reaches the cost-sensitive decision threshold; it is
a function of the raw score alone, independent of the four-band label. -/
def failureFlag (rawScore : ℚ) : Bool := decide (decisionThreshold ≤ rawScore)


/-- One row of the process_data table as the backend persists it: the
twelve columns that insertRecord writes and recordExists compares
(epics-backend/db/queries.js); the store-assigned id and timestamp are
not part of the comparison and are omitted.  The controller never
parses the CSV cell contents, so every field is the raw string the
csv-parser produced. -/
structure PRecord where
  type_h : String
  type_l : String
  type_m : String
  tool_wear : String
  rotation_speed : String
  torque : String
  air_temp : String
  process_temp : String
  temp_diff : String
  power : String
  prediction_label : String
  prediction_score : String
deriving DecidableEq

/-- A parsed CSV row as the data callback of processCSV receives it:
none models the empty object the csv-parser can emit for a blank line
(Object.keys(row).length === 0); some r is a row with fields. -/
def CsvRow : Type := Option PRecord

/-- Outcome of one row in the data callback of processCSV
(csvDB.controller.js): the callback either returns early on an
empty/missing-type row, logs a fresh insert, or logs an existing
record; no other branch exists in the source. -/
inductive RowOutcome where
  | skippedEmptyRow : RowOutcome
  | inserted : RowOutcome
  | duplicate : RowOutcome
deriving DecidableEq

/-- recordExists of db/queries.js: SELECT 1 FROM process_data comparing
all twelve columns, with rowCount > 0 as the result; over the modelled
store this is membership of the twelve-field tuple. -/
def recordExists (store : List PRecord) (r : PRecord) : Bool :=
  decide (r ∈ store)

/-- insertRecord of db/queries.js: INSERT of the twelve columns -
appending one row to the store. -/
def insertRecord (store : List PRecord) (r : PRecord) : List PRecord :=
  store ++ [r]

/-- The skip condition of the data callback in processCSV:
Object.keys(row).length === 0 || !row.type_h (a missing or empty
type_h string is falsy in JavaScript). -/
def skipRow (row : CsvRow) : Bool :=
  match row with
  | none => true
  | some r => r.type_h = ""

/-- The body of the data callback of processCSV for one row: skip an
empty/missing-type row, otherwise insert unless recordExists. -/
def processRow (store : List PRecord) (row : CsvRow) :
    RowOutcome × List PRecord :=
  match row with
  | none => (RowOutcome.skippedEmptyRow, store)
  | some r =>
    if r.type_h = "" then (RowOutcome.skippedEmptyRow, store)
    else if recordExists store r then (RowOutcome.duplicate, store)
    else (RowOutcome.inserted, insertRecord store r)

/-- Sequential run of the data callback over the streamed rows in input
order, collecting the outcome of each row and threading the store. -/
def runRows (store : List PRecord) : List CsvRow → List RowOutcome × List PRecord
  | [] => ([], store)
  | row :: rest =>
    let step := processRow store row
    let tail := runRows step.2 rest
    (step.1 :: tail.1, tail.2)

/-- What processCSV resolves with, together with the store it leaves
behind: the source resolves \x7b message, newRecords:
recordsToInsert.length \x7d on the end event. -/
structure BatchResult where
  outcomes : List RowOutcome
  store : List PRecord
  newRecords : Nat
deriving DecidableEq

/-- processCSV of csvDB.controller.js over an initial store and the
parsed rows of the file: runs the data callback on every row and
resolves with newRecords = recordsToInsert.length, where the source
declares recordsToInsert as an empty array and never appends to it. -/
def processCSV (store : List PRecord) (rows : List CsvRow) : BatchResult :=
  let recordsToInsert : List PRecord := []
  { outcomes := (runRows store rows).1
    store := (runRows store rows).2
    newRecords := recordsToInsert.length }

/-- Row template matching the documented CSV format of the backend
README, with tool_wear and torque cells supplied per row. -/
def mkRow (wear torque : String) : PRecord :=
  { type_h := "0", type_l := "1", type_m := "0", tool_wear := wear,
    rotation_speed := "1500", torque := torque, air_temp := "298.5",
    process_temp := "308.7", temp_diff := "10.2", power := "6650.5",
    prediction_label := "No Failure", prediction_score := "0.95" }

/-- Ten parsed rows in which row 5 is an entirely-empty row and row 8
carries a non-numeric torque cell; the remaining eight rows are valid
and pairwise distinct. -/
def batch10 : List CsvRow :=
  [some (mkRow "1" "40.0"), some (mkRow "2" "40.0"), some (mkRow "3" "40.0"),
   some (mkRow "4" "40.0"), none, some (mkRow "6" "40.0"),
   some (mkRow "7" "40.0"), some (mkRow "8" "abc"), some (mkRow "9" "40.0"),
   some (mkRow "10" "40.0")]


/-- Progress of one concurrent writer submitting a record: it has not
yet issued its existence check, has issued it and holds the answer, or
has finished with an outcome.  The two database calls of the data
callback (recordExists, then insertRecord) are the two suspension
points, so a writer advances in exactly these two steps. -/
inductive WPhase where
  | start : WPhase
  | checked : Bool → WPhase
  | done : RowOutcome → WPhase
deriving DecidableEq

/-- Shared state of N concurrent writers over one store. -/
structure ConcState where
  store : List PRecord
  workers : List WPhase
deriving DecidableEq

/-- One step of a single writer submitting record r: first the
unguarded existence check, then - as a separate call, exactly as in the
source - the insert (or the duplicate report).  No store-side
uniqueness constraint exists in the schema, so the insert always
appends. -/
def workerStep (r : PRecord) (store : List PRecord) :
    WPhase → List PRecord × WPhase
  | WPhase.start => (store, WPhase.checked (recordExists store r))
  | WPhase.checked true => (store, WPhase.done RowOutcome.duplicate)
  | WPhase.checked false =>
      (insertRecord store r, WPhase.done RowOutcome.inserted)
  | WPhase.done o => (store, WPhase.done o)

/-- Advance the writer named by the schedule entry i by one step. -/
def schedStep (r : PRecord) (s : ConcState) (i : Nat) : ConcState :=
  match s.workers[i]? with
  | none => s
  | some ph =>
    let step := workerStep r s.store ph
    { store := step.1, workers := s.workers.set i step.2 }

/-- Run the writers under an explicit interleaving: the schedule lists,
in order, which writer takes the next step. -/
def runSched (r : PRecord) (s : ConcState) (sched : List Nat) : ConcState :=
  sched.foldl (schedStep r) s

/-- Initial state for n writers that all submit the same content
against a given store. -/
def initConc (store : List PRecord) (n : Nat) : ConcState :=
  { store := store, workers := List.replicate n WPhase.start }

/-- The sequential schedule: each writer completes both of its steps
before the next writer starts. -/
def seqSched : Nat → List Nat
  | 0 => []
  | n + 1 => 0 :: 0 :: (seqSched n).map (fun i => i + 1)


/-!
Helper lemmas shared by the claim theorems.
-/

/-- A nonnegative factor distributes over a binary minimum. -/
lemma mul_min_nonneg (c a b : ℚ) (hc : 0 ≤ c) :
    c * min a b = min (c * a) (c * b) := by
  rcases le_total a b with h | h
  · rw [min_eq_left h, min_eq_left (mul_le_mul_of_nonneg_left h hc)]
  · rw [min_eq_right h, min_eq_right (mul_le_mul_of_nonneg_left h hc)]

/-- The data callback never removes a record from the store. -/
lemma mem_processRow {store : List PRecord} {row : CsvRow} {r : PRecord}
    (h : r ∈ store) : r ∈ (processRow store row).2 := by
  cases row with
  | none => exact h
  | some rec =>
    simp only [processRow]
    split_ifs with h1 h2
    · exact h
    · exact h
    · simp only [insertRecord]
      exact List.mem_append_left _ h

/-- A batch run never removes a record from the store. -/
lemma mem_runRows {rows : List CsvRow} {store : List PRecord} {r : PRecord}
    (h : r ∈ store) : r ∈ (runRows store rows).2 := by
  induction rows generalizing store with
  | nil => exact h
  | cons row rest ih =>
    simp only [runRows]
    exact ih (mem_processRow h)

/-- After a batch run, every non-skipped input row is in the store:
it was either already there or freshly inserted. -/
lemma row_mem_runRows {rows : List CsvRow} {store : List PRecord} {rec : PRecord}
    (hmem : some rec ∈ rows) (hty : ¬ rec.type_h = "") :
    rec ∈ (runRows store rows).2 := by
  induction rows generalizing store with
  | nil => cases hmem
  | cons row rest ih =>
    simp only [runRows]
    rcases List.mem_cons.mp hmem with heq | htail
    · apply mem_runRows
      rw [← heq]
      simp only [processRow, if_neg hty]
      split_ifs with hex
      · simp only [recordExists, decide_eq_true_eq] at hex
        exact hex
      · simp only [insertRecord]
        exact List.mem_append_right _ (List.mem_singleton.mpr rfl)
    · exact ih htail

/-- When every non-skipped row of a batch is already stored, running the
batch leaves the store unchanged and produces no inserted outcome. -/
lemma runRows_no_new {rows : List CsvRow} {store : List PRecord}
    (h : ∀ rec : PRecord, some rec ∈ rows → ¬ rec.type_h = "" → rec ∈ store) :
    (runRows store rows).2 = store ∧
      RowOutcome.inserted ∉ (runRows store rows).1 := by
  induction rows generalizing store with
  | nil => exact ⟨rfl, by simp [runRows]⟩
  | cons row rest ih =>
    have hstep : (processRow store row).2 = store ∧
        (processRow store row).1 ≠ RowOutcome.inserted := by
      cases row with
      | none => exact ⟨rfl, by simp [processRow]⟩
      | some rec =>
        by_cases hty : rec.type_h = ""
        · simp [processRow, hty]
        · have hex : recordExists store rec = true := by
            simp only [recordExists, decide_eq_true_eq]
            exact h rec (List.mem_cons_self _ _) hty
          simp [processRow, hty, hex]
    have ihh := ih (fun rec hm hty => h rec (List.mem_cons_of_mem _ hm) hty)
    simp only [runRows, hstep.1]
    exact ⟨ihh.1, by
      simp only [List.mem_cons, not_or]
      exact ⟨fun hc => hstep.2 hc.symm, ihh.2⟩⟩

/-- A batch run emits one outcome per input row, in input order, and
the outcome is the skip outcome exactly for the rows the skip condition
of the data callback matches. -/
lemma runRows_skip_iff (rows : List CsvRow) (store : List PRecord) :
    List.Forall₂ (fun row o => o = RowOutcome.skippedEmptyRow ↔ skipRow row = true)
      rows (runRows store rows).1 := by
  induction rows generalizing store with
  | nil => simp [runRows]
  | cons row rest ih =>
    simp only [runRows]
    refine List.Forall₂.cons ?_ (ih _)
    cases row with
    | none => simp [processRow, skipRow]
    | some rec =>
      by_cases hty : rec.type_h = ""
      · simp [processRow, skipRow, hty]
      · cases hex : recordExists store rec <;>
          simp [processRow, skipRow, hty, hex]

/-- Scheduling only the workers after the first leaves the first worker
untouched and acts on the remaining workers as a smaller system. -/
lemma runSched_shift (r : PRecord) (w0 : WPhase) (sched : List Nat) :
    ∀ (st : List PRecord) (ws : List WPhase),
      runSched r ⟨st, w0 :: ws⟩ (sched.map (fun i => i + 1)) =
        ⟨(runSched r ⟨st, ws⟩ sched).store,
          w0 :: (runSched r ⟨st, ws⟩ sched).workers⟩ := by
  induction sched with
  | nil => intro st ws; rfl
  | cons i rest ih =>
    intro st ws
    simp only [List.map_cons, runSched, List.foldl_cons]
    have hstep : schedStep r ⟨st, w0 :: ws⟩ (i + 1) =
        ⟨(schedStep r ⟨st, ws⟩ i).store,
          w0 :: (schedStep r ⟨st, ws⟩ i).workers⟩ := by
      simp only [schedStep, List.getElem?_cons_succ]
      cases hws : ws[i]? with
      | none => rfl
      | some ph => simp [List.set_cons_succ]
    rw [hstep]
    exact ih _ _

/-- Workers that submit a record already present in the store, run
sequentially, all finish as duplicates and leave the store unchanged. -/
lemma runSched_dup (r : PRecord) :
    ∀ (m : Nat) (store : List PRecord), r ∈ store →
      runSched r ⟨store, List.replicate m WPhase.start⟩ (seqSched m) =
        ⟨store, List.replicate m (WPhase.done RowOutcome.duplicate)⟩ := by
  intro m
  induction m with
  | zero => intro store _; rfl
  | succ m ih =>
    intro store h
    have hex : recordExists store r = true := by
      simp only [recordExists, decide_eq_true_eq]; exact h
    simp only [seqSched, List.replicate_succ, runSched, List.foldl_cons]
    simp only [schedStep, List.getElem?_cons_zero, workerStep, hex,
      List.set_cons_zero]
    have hsh := runSched_shift r (WPhase.done RowOutcome.duplicate) (seqSched m)
      store (List.replicate m WPhase.start)
    simp only [runSched] at hsh
    rw [hsh]
    have ihh := ih store h
    simp only [runSched] at ihh
    rw [ihh]

/-!
Claim theorems.
-/

/-- C1 counterexample: the failure probability the source computes is
not the weighted sum 0.4 * min(tool_wear/250, 1) + 0.3 *
min(max(tempDiff-8, 0)/12, 1) + 0.3 * min(power/15000, 1) clamped to
[0, 0.99].  At tool_wear 50 (tempDiff 8, power 0) the source yields 0.2
while the claimed formula yields 0.08; at tool_wear -10000 the source
yields -40 (no lower clamp) while the claimed formula yields 0. -/
theorem c1_risk_score_spec_formula_cex :
    failureProbability ⟨300, 308, 0, 0, 50⟩ = 0.2 ∧
    specFailureProbability ⟨300, 308, 0, 0, 50⟩ = 0.08 ∧
    failureProbability ⟨300, 308, 0, 0, 50⟩ ≠
      specFailureProbability ⟨300, 308, 0, 0, 50⟩ ∧
    failureProbability ⟨300, 308, 0, 0, -10000⟩ = -40 ∧
    specFailureProbability ⟨300, 308, 0, 0, -10000⟩ = 0 ∧
    failureProbability ⟨300, 308, 0, 0, -10000⟩ ≠
      specFailureProbability ⟨300, 308, 0, 0, -10000⟩ := by
  refine ⟨?_, ?_, ?_, ?_, ?_, ?_⟩ <;>
    norm_num [failureProbability, specFailureProbability, riskScore, specRawScore,
      tempDiff, power, MathPI, min_def, max_def]

/-- C1 as amended: for every reading, the failure probability of the
source equals the weighted sum 0.4 * min(tool_wear/100, 1) + 0.3 *
min(max(tempDiff-8, 0)/3.6, 1) + 0.3 * min(power/4500, 1) clamped
above at 0.99, with no lower clamp: each summand saturates at its
weight once the factor reaches 100 minutes, 3.6 K above the 8 K
offset, or 4500 W, so the 250 / 12 / 15000 constants of the claim
bound the caps, not the weights. -/
theorem c1_risk_score_capped_weighted_form (d : SensorData) :
    failureProbability d =
      min (0.4 * min (d.tool_wear / 100) 1
        + 0.3 * min (max (tempDiff d - 8) 0 / 3.6) 1
        + 0.3 * min (power d / 4500) 1) 0.99 := by
  have h1 : (0.4 : ℚ) * min (d.tool_wear / 100) 1 = min (d.tool_wear / 250) 0.4 := by
    rw [mul_min_nonneg _ _ _ (by norm_num)]
    congr 1 <;> ring
  have h2 : (0.3 : ℚ) * min (max (tempDiff d - 8) 0 / 3.6) 1
      = min (max (tempDiff d - 8) 0 / 12) 0.3 := by
    rw [mul_min_nonneg _ _ _ (by norm_num)]
    congr 1 <;> ring
  have h3 : (0.3 : ℚ) * min (power d / 4500) 1 = min (power d / 15000) 0.3 := by
    rw [mul_min_nonneg _ _ _ (by norm_num)]
    congr 1 <;> ring
  rw [failureProbability, riskScore, h1, h2, h3]

/-- C2: the binary failure-risk flag (modelled from the spec, since the
ml-enterprise classifier is absent from the source tree) is set exactly
when the raw score reaches maintenance_cost / (maintenance_cost +
failure_cost); with the reference costs 2050 and 10300 the threshold is
2050/12350 = 41/247; the flag is a function of the raw score alone, and
a reading can be flagged failure-risk while the four-band label - here
applied to the same reading by the source riskLevel - is low. -/
theorem c2_cost_sensitive_failure_flag :
    (∀ d : SensorData, failureFlag (riskScore d) = true ↔
      maintenanceCost / (maintenanceCost + failureCost) ≤ riskScore d) ∧
    decisionThreshold = 41 / 247 ∧
    failureFlag (riskScore ⟨300, 308, 0, 0, 50⟩) = true ∧
    riskLevel (failureProbability ⟨300, 308, 0, 0, 50⟩) = "low" := by
  refine ⟨fun d => ?_, by norm_num [decisionThreshold, maintenanceCost, failureCost],
    ?_, ?_⟩
  · simp [failureFlag, decisionThreshold]
  · simp only [failureFlag, decide_eq_true_eq, decisionThreshold,
      maintenanceCost, failureCost]
    norm_num [riskScore, tempDiff, power, MathPI, min_def, max_def]
  · norm_num [riskLevel, failureProbability, riskScore, tempDiff, power, MathPI,
      min_def, max_def]

/-- C2 witness: a concrete worn reading is flagged failure-risk,
obtained from the threshold characterisation. -/
theorem c2_cost_sensitive_failure_flag_witness :
    failureFlag (riskScore ⟨300, 308, 1500, 42.3, 250⟩) = true :=
  (c2_cost_sensitive_failure_flag.1 ⟨300, 308, 1500, 42.3, 250⟩).mpr (by
    norm_num [riskScore, tempDiff, power, MathPI, maintenanceCost, failureCost,
      min_def, max_def])

/-- C3: the batch result of processCSV does not account for the fate of
the input rows: ingesting one fresh valid row inserts it into the store
yet the resolved newRecords count is 0, and indeed newRecords is 0 for
every batch whatsoever, because the source never appends to the
recordsToInsert array it reports the length of - contradicting the
documented response of the backend README (recordsAdded = number of
inserted rows). -/
theorem c3_new_records_reported_zero :
    processCSV [] [some (mkRow "150.5" "42.3")] =
      { outcomes := [RowOutcome.inserted], store := [mkRow "150.5" "42.3"],
        newRecords := 0 } ∧
    ∀ (store : List PRecord) (rows : List CsvRow),
      (processCSV store rows).newRecords = 0 :=
  ⟨by decide, fun store rows => rfl⟩

/-- C4 counterexample: two workers submitting the same record under the
interleaving check-check-insert-insert both observe the record absent
and both insert, yielding two Inserted outcomes and two stored copies
of the same field-tuple - the unguarded check-then-insert of the source
does not keep the at-most-one guarantee under concurrency. -/
theorem c4_interleaved_duplicate_insertion_cex :
    runSched (mkRow "150.5" "42.3") (initConc [] 2) [0, 1, 0, 1] =
      { store := [mkRow "150.5" "42.3", mkRow "150.5" "42.3"],
        workers := [WPhase.done RowOutcome.inserted,
                    WPhase.done RowOutcome.inserted] } ∧
    (runSched (mkRow "150.5" "42.3") (initConc [] 2) [0, 1, 0, 1]).store.count
        (mkRow "150.5" "42.3") = 2 ∧
    (runSched (mkRow "150.5" "42.3") (initConc [] 2) [0, 1, 0, 1]).workers.count
        (WPhase.done RowOutcome.inserted) = 2 :=
  ⟨by decide, by decide, by decide⟩

/-- C4 as amended: under the sequential schedule, in which each of the
N = n+1 workers completes its check-then-insert before the next one
starts, submitting the same fresh record N times yields exactly one
Inserted outcome, N-1 Duplicate outcomes, and exactly one stored copy;
the at-most-one guarantee holds only for such non-interleaved
executions, since neither the source nor the schema serialises the
check and the insert. -/
theorem c4_sequential_single_insert (n : Nat) (store : List PRecord)
    (r : PRecord) (h : r ∉ store) :
    runSched r (initConc store (n + 1)) (seqSched (n + 1)) =
      ⟨store ++ [r], WPhase.done RowOutcome.inserted ::
        List.replicate n (WPhase.done RowOutcome.duplicate)⟩ ∧
    (store ++ [r]).count r = 1 := by
  constructor
  · have hex : recordExists store r = false := by
      simp [recordExists, h]
    simp only [initConc, seqSched, List.replicate_succ, runSched, List.foldl_cons]
    simp only [schedStep, List.getElem?_cons_zero, workerStep, hex,
      List.set_cons_zero, insertRecord]
    have hsh := runSched_shift r (WPhase.done RowOutcome.inserted) (seqSched n)
      (store ++ [r]) (List.replicate n WPhase.start)
    simp only [runSched] at hsh
    rw [hsh]
    have hd := runSched_dup r n (store ++ [r])
      (List.mem_append_right _ (List.mem_singleton.mpr rfl))
    simp only [runSched] at hd
    rw [hd]
  · rw [List.count_append, List.count_eq_zero_of_not_mem h]
    simp

/-- C4 witness: two sequential submissions of a concrete fresh record
leave exactly one stored copy. -/
theorem c4_sequential_single_insert_witness :
    (([] : List PRecord) ++ [mkRow "150.5" "42.3"]).count (mkRow "150.5" "42.3") = 1 :=
  (c4_sequential_single_insert 1 [] (mkRow "150.5" "42.3") (by simp)).2

/-- C5: re-ingesting a batch against the store state left by its first
run inserts nothing: the store is unchanged, no row receives the
Inserted outcome, and indeed every non-skipped row of the batch is
already present in the store after the first run under the
twelve-field equality that recordExists checks. -/
theorem c5_second_ingest_inserts_nothing (store : List PRecord)
    (rows : List CsvRow) :
    (processCSV (processCSV store rows).store rows).store =
        (processCSV store rows).store ∧
      RowOutcome.inserted ∉ (processCSV (processCSV store rows).store rows).outcomes ∧
      ∀ rec : PRecord, some rec ∈ rows → ¬ rec.type_h = "" →
        rec ∈ (processCSV store rows).store := by
  have hall : ∀ rec : PRecord, some rec ∈ rows → ¬ rec.type_h = "" →
      rec ∈ (runRows store rows).2 :=
    fun rec hm hty => row_mem_runRows hm hty
  have h2 := runRows_no_new hall
  exact ⟨h2.1, h2.2, hall⟩

/-- C5 witness: after ingesting the concrete ten-row batch once, its
first row is already stored, so a second run finds it existing. -/
theorem c5_second_ingest_inserts_nothing_witness :
    mkRow "1" "40.0" ∈ (processCSV [] batch10).store :=
  (c5_second_ingest_inserts_nothing [] batch10).2.2 (mkRow "1" "40.0")
    (by decide) (by decide)

/-- C6 counterexample: the ten-row batch with row 5 empty and a
non-numeric torque cell in row 8 does complete without aborting, but
with 9 Inserted/Duplicate outcomes and a single skipped row rather
than the claimed 8 outcomes and 2 reasoned rejections: the source
performs no numeric validation and has no rejection outcome at all,
and the non-numeric row is persisted into the store. -/
theorem c6_malformed_rows_cex :
    (processCSV [] batch10).outcomes.count RowOutcome.inserted +
        (processCSV [] batch10).outcomes.count RowOutcome.duplicate = 9 ∧
    (processCSV [] batch10).outcomes.count RowOutcome.skippedEmptyRow = 1 ∧
    (processCSV [] batch10).outcomes.length = 10 ∧
    mkRow "8" "abc" ∈ (processCSV [] batch10).store :=
  ⟨by decide, by decide, by decide, by decide⟩

/-- C6 as amended: no row ever aborts a batch - every batch yields
exactly one outcome per input row, in input order, and the outcome is
SkippedEmptyRow precisely for the entirely-empty or missing/empty
machine-type rows; all other rows, including rows whose numeric cells
do not parse (the controller never parses them), proceed to an
Inserted or Duplicate outcome, so the ten-row example completes with 9
Inserted/Duplicate outcomes and 1 skipped row and no rejection. -/
theorem c6_no_abort_skip_only :
    (∀ (store : List PRecord) (rows : List CsvRow),
      List.Forall₂ (fun row o => o = RowOutcome.skippedEmptyRow ↔ skipRow row = true)
        rows (processCSV store rows).outcomes ∧
      (processCSV store rows).outcomes.length = rows.length) ∧
    (processCSV [] batch10).outcomes.count RowOutcome.inserted +
        (processCSV [] batch10).outcomes.count RowOutcome.duplicate = 9 ∧
    (processCSV [] batch10).outcomes.count RowOutcome.skippedEmptyRow = 1 := by
  refine ⟨fun store rows => ?_, by decide, by decide⟩
  have h := runRows_skip_iff rows store
  exact ⟨h, h.length_eq.symm⟩

/-- C6 witness: the ten-row batch produces exactly ten outcomes. -/
theorem c6_no_abort_skip_only_witness :
    (processCSV [] batch10).outcomes.length = batch10.length :=
  (c6_no_abort_skip_only.1 [] batch10).2

/-- C7: the four risk bands of the source are characterised by
inclusive lower boundaries at 0.70, 0.50 and 0.30: critical iff
p >= 0.70, high iff 0.50 <= p < 0.70, medium iff 0.30 <= p < 0.50, low
iff p < 0.30; in particular exactly 0.70 is critical and 0.6999999 is
high. -/
theorem c7_risk_level_bands :
    (∀ p : ℚ,
      (riskLevel p = "critical" ↔ 0.7 ≤ p) ∧
      (riskLevel p = "high" ↔ 0.5 ≤ p ∧ p < 0.7) ∧
      (riskLevel p = "medium" ↔ 0.3 ≤ p ∧ p < 0.5) ∧
      (riskLevel p = "low" ↔ p < 0.3)) ∧
    riskLevel 0.7 = "critical" ∧ riskLevel 0.6999999 = "high" := by
  refine ⟨fun p => ?_, by norm_num [riskLevel], by norm_num [riskLevel]⟩
  unfold riskLevel
  split_ifs with h1 h2 h3 <;>
    refine ⟨?_, ?_, ?_, ?_⟩ <;>
    simp_all <;> first | linarith | (intro h; linarith)

/-- C7 witness: a probability of one half lies in the high band. -/
theorem c7_risk_level_bands_witness : riskLevel (1 / 2) = "high" :=
  ((c7_risk_level_bands.1 (1 / 2)).2.1).mpr (by norm_num)

/-- C8: the feature derivation of the source is the total pair of
formulas tempDiff = process_temperature - air_temperature and power =
2 * Math.PI * rotational_speed * torque / 60 with no clamping or
rounding, where the Math.PI constant of the source lies between
3.141592 and 3.141593; for air 298.5 and process 308.7 the
differential is 10.2 up to 1e-9, and for speed 1500 and torque 42.3
the power is within 0.5 of 6644 W. -/
theorem c8_derived_features_exact :
    (∀ d : SensorData, tempDiff d = d.process_temperature - d.air_temperature) ∧
    (∀ d : SensorData, power d = 2 * MathPI * d.rotational_speed * d.torque / 60) ∧
    ((3.141592 : ℚ) ≤ MathPI ∧ MathPI ≤ 3.141593) ∧
    |tempDiff ⟨298.5, 308.7, 1500, 42.3, 0⟩ - 10.2| ≤ 1 / 1000000000 ∧
    |power ⟨298.5, 308.7, 1500, 42.3, 0⟩ - 6644| ≤ 1 / 2 := by
  refine ⟨fun d => rfl, fun d => rfl, by norm_num [MathPI], ?_, ?_⟩
  · rw [abs_le]; constructor <;> norm_num [tempDiff]
  · rw [abs_le]; constructor <;> norm_num [power, MathPI]

/-- C9: for two readings that agree on every field except tool wear,
both tool-wear values nonnegative, the reading with the larger tool
wear receives a risk score at least as large. -/
theorem c9_risk_monotone_tool_wear (A B : SensorData)
    (hair : A.air_temperature = B.air_temperature)
    (hproc : A.process_temperature = B.process_temperature)
    (hspeed : A.rotational_speed = B.rotational_speed)
    (htorque : A.torque = B.torque)
    (_hB : 0 ≤ B.tool_wear) (_hA : 0 ≤ A.tool_wear)
    (hgt : B.tool_wear < A.tool_wear) :
    riskScore B ≤ riskScore A := by
  have htd : tempDiff A = tempDiff B := by
    simp [tempDiff, hair, hproc]
  have hpw : power A = power B := by
    simp [power, hspeed, htorque]
  simp only [riskScore, htd, hpw]
  have hmin : min (B.tool_wear / 250) 0.4 ≤ min (A.tool_wear / 250) 0.4 :=
    min_le_min (by linarith) le_rfl
  linarith

/-- C9 witness: concrete readings differing only in tool wear 100
versus 50 compare as claimed. -/
theorem c9_risk_monotone_tool_wear_witness :
    riskScore ⟨300, 308, 1500, 40, 50⟩ ≤ riskScore ⟨300, 308, 1500, 40, 100⟩ :=
  c9_risk_monotone_tool_wear ⟨300, 308, 1500, 40, 100⟩ ⟨300, 308, 1500, 40, 50⟩
    rfl rfl rfl rfl (by norm_num) (by norm_num) (by norm_num)

/-- C10: for every reading with nonnegative tool wear, torque and
rotational speed, the pre-clamp risk score lies in [0, 1] and the
failure probability lies in [0, 0.99] although the source applies only
an upper clamp; and without the nonnegative-tool-wear hypothesis the
failure probability can be negative. -/
theorem c10_probability_bounds :
    (∀ d : SensorData, 0 ≤ d.tool_wear → 0 ≤ d.torque →
      0 ≤ d.rotational_speed →
      0 ≤ riskScore d ∧ riskScore d ≤ 1 ∧
      0 ≤ failureProbability d ∧ failureProbability d ≤ 0.99) ∧
    failureProbability ⟨300, 308, 0, 0, -10000⟩ < 0 := by
  constructor
  · intro d hw ht hs
    have hpi : (0 : ℚ) ≤ MathPI := by norm_num [MathPI]
    have hpw : (0 : ℚ) ≤ power d := by
      simp only [power]
      positivity
    have s1l : (0 : ℚ) ≤ min (d.tool_wear / 250) 0.4 :=
      le_min (by positivity) (by norm_num)
    have s1u : min (d.tool_wear / 250) 0.4 ≤ (0.4 : ℚ) := min_le_right _ _
    have s2l : (0 : ℚ) ≤ min (max (tempDiff d - 8) 0 / 12) 0.3 :=
      le_min (by positivity) (by norm_num)
    have s2u : min (max (tempDiff d - 8) 0 / 12) 0.3 ≤ (0.3 : ℚ) := min_le_right _ _
    have s3l : (0 : ℚ) ≤ min (power d / 15000) 0.3 :=
      le_min (by positivity) (by norm_num)
    have s3u : min (power d / 15000) 0.3 ≤ (0.3 : ℚ) := min_le_right _ _
    have hrs0 : (0 : ℚ) ≤ riskScore d := by
      simp only [riskScore]; linarith
    have hrs1 : riskScore d ≤ 1 := by
      simp only [riskScore]; linarith
    refine ⟨hrs0, hrs1, ?_, min_le_right _ _⟩
    exact le_min hrs0 (by norm_num)
  · norm_num [failureProbability, riskScore, tempDiff, power, MathPI,
      min_def, max_def]

/-- C10 witness: a concrete in-range reading receives a failure
probability inside [0, 0.99]. -/
theorem c10_probability_bounds_witness :
    0 ≤ failureProbability ⟨298.5, 308.7, 1500, 42.3, 100⟩ ∧
    failureProbability ⟨298.5, 308.7, 1500, 42.3, 100⟩ ≤ 0.99 := by
  have h := c10_probability_bounds.1 ⟨298.5, 308.7, 1500, 42.3, 100⟩
    (by norm_num) (by norm_num) (by norm_num)
  exact ⟨h.2.2.1, h.2.2.2⟩
